import Mathlib

/-
Verification of the resilient request layer and mock-interview session
controller of the PrepForge web application (src/lib/fetchWithRetry.ts,
which also contains the Home page component).

Part 1: the retrying HTTP client `fetchWithRetry` (source lines 7-70) and
the JSON decoder `fetchJSON` (source lines 73-87).

The client is modelled over an abstract endpoint behaviour
`att : Nat → AttemptOutcome` giving, for each attempt index, what the
underlying `fetch` call does on that attempt: complete with a status code,
reject with an AbortError (the timeout fired), or reject with another
network-level error carrying a message.
-/

/-- What a single underlying `fetch` call does on a given attempt. -/
inductive AttemptOutcome where
  | completes (status : Nat)
  | aborts
  | fails (msg : String)
deriving DecidableEq, Repr

/-- `Response.ok` of the fetch API: status in [200,299]. -/
def respOk (status : Nat) : Bool :=
  decide (200 ≤ status) && decide (status ≤ 299)

/-- The client error range checked at source line 34:
`response.status >= 400 && response.status < 500`. -/
def is4xx (status : Nat) : Bool :=
  decide (400 ≤ status) && decide (status ≤ 499)

/-- The result the caller of `fetchWithRetry` observes: either a returned
`Response` (abstracted to its status code) or a thrown `Error` message. -/
inductive FetchResult where
  | resp (status : Nat)
  | thrown (msg : String)
deriving DecidableEq, Repr

/-- The fixed timeout message thrown at source lines 51-53. -/
def timeoutMessage : String :=
  "Request timeout. The server might be waking up (this can take up to 60 seconds on free tier). Please try again."

/-- The generic fallback thrown at source lines 66-69 when `lastError`
has a falsy (empty) message. -/
def networkErrorFallback : String :=
  "Network error. Please check your connection or try again in a moment."

/-- One run of `fetchWithRetry`: the observed result, how many attempts
were performed, and the list of backoff delays awaited (in order). -/
structure RunStats where
  result : FetchResult
  attempts : Nat
  delays : List Nat
deriving DecidableEq, Repr

/-- The loop of source lines 20-63, indexed by `remaining` = number of
attempts still allowed after the current one (`retries - i`) and the
current attempt index `i`.

On the final attempt (`remaining = 0`): a completed response is returned
whatever its status (lines 34-36 for 2xx-4xx, line 45 for the rest); an
AbortError is converted to the fixed timeout message and thrown (lines
50-54); any other error falls out of the loop and line 66 throws
`lastError.message || <generic fallback>` — at that point `lastError` is
exactly the error of this last attempt, and the `||` substitutes the
generic fallback when the message is the empty string.

With attempts remaining: a status that is `ok` or 4xx is returned at once
(lines 34-36); an AbortError is thrown at once (lines 50-54); every other
outcome waits `retryDelay * (i + 1)` (lines 41, 59) and continues. -/
def fetchLoop (att : Nat → AttemptOutcome) (rd : Nat) : Nat → Nat → RunStats
  | 0, i =>
    match att i with
    | .completes status => ⟨.resp status, 1, []⟩
    | .aborts => ⟨.thrown timeoutMessage, 1, []⟩
    | .fails msg => ⟨.thrown (if msg = "" then networkErrorFallback else msg), 1, []⟩
  | r + 1, i =>
    match att i with
    | .completes status =>
      if respOk status || is4xx status then
        ⟨.resp status, 1, []⟩
      else
        let rest := fetchLoop att rd r (i + 1)
        ⟨rest.result, rest.attempts + 1, rd * (i + 1) :: rest.delays⟩
    | .aborts => ⟨.thrown timeoutMessage, 1, []⟩
    | .fails msg =>
      let rest := fetchLoop att rd r (i + 1)
      ⟨rest.result, rest.attempts + 1, rd * (i + 1) :: rest.delays⟩

/-- `fetchWithRetry` (source lines 7-70) with `retries` and `retryDelay`
explicit; the source defaults are `retries = 3`, `retryDelay = 1000`. -/
def fetchWithRetry (att : Nat → AttemptOutcome) (rd retries : Nat) : RunStats :=
  fetchLoop att rd retries 0

/-- An attempt outcome the loop retries when attempts remain: any
completed status that is neither `ok` nor 4xx, or any non-abort error. -/
def retryableOutcome : AttemptOutcome → Bool
  | .completes s => !(respOk s || is4xx s)
  | .aborts => false
  | .fails _ => true

/-- The final result the caller observes when the loop reaches its last
allowed attempt and that attempt yields the given outcome (see the
`remaining = 0` clause of `fetchLoop`). -/
def lastAttemptResult : AttemptOutcome → FetchResult
  | .completes status => .resp status
  | .aborts => .thrown timeoutMessage
  | .fails msg => .thrown (if msg = "" then networkErrorFallback else msg)

/-- The chronological list of backoff delays awaited when attempts
`i, i+1, ..., i+k-1` all retry: `rd*(i+1), rd*(i+2), ..., rd*(i+k)`. -/
def delayListFrom (rd : Nat) : Nat → Nat → List Nat
  | _, 0 => []
  | i, k + 1 => rd * (i + 1) :: delayListFrom rd (i + 1) k

/-- The endpoint behaviour refuting C2: a 304 response (status in
[200,399] but outside the fetch API `ok` range [200,299]) on the first
attempt, then a 200. -/
def attRedirect : Nat → AttemptOutcome := fun i =>
  if i = 0 then .completes 304 else .completes 200

/-- The JSON error body fields inspected by `fetchJSON` at source line 82. -/
structure ErrorBody where
  error : Option String
  message : Option String
deriving DecidableEq, Repr

/-- JavaScript `a || b` on an optional string field: a missing field and
the empty string are falsy and fall through to `b`. -/
def jsOrElse (a : Option String) (b : String) : String :=
  match a with
  | some s => if s = "" then b else s
  | none => b

/-- The message built at source lines 81-83:
`errorData.error || errorData.message || HTTP error! status: N`.
`body = none` models a response body that is not parseable JSON, which
`.catch(() => ({}))` at line 80 replaces with the empty object. -/
def fetchJSONErrorMessage (status : Nat) (body : Option ErrorBody) : String :=
  let errorData := body.getD ⟨none, none⟩
  jsOrElse errorData.error
    (jsOrElse errorData.message ("HTTP error! status: " ++ toString status))

/-- `fetchJSON` (source lines 73-87) after `fetchWithRetry` has returned a
response: an `ok` response is decoded, every other response raises the
composed error message. -/
def fetchJSON (status : Nat) (body : Option ErrorBody) : Except String Unit :=
  if respOk status then .ok () else .error (fetchJSONErrorMessage status body)

/-
Part 2: the mock-interview session controller (the Home component,
source lines 114-356 of src/lib/fetchWithRetry.ts).

The controller's reactive state is a `Session` record; each UI handler
becomes a pure function on it.  Handlers that await a network response
are split into a start step (validation and pending-flag set, returning
whether a request was issued) and a completion step applied to the
delivered result.  User interaction is an event sequence: a click event
is a no-op whenever the source renders the corresponding button disabled
or not at all (gated on the current phase / pending flags), and a
completion event is a no-op unless its pending flag shows a call in
flight.  The interval of the timer `useEffect` (source lines 143-159) is
a `timerRunning` flag re-evaluated whenever one of the effect's
dependencies (`currentStep`, `currentQuestionIndex`, `showFeedback`)
changed, and cleared directly by `submitAnswer`'s `clearInterval`.
The user-registration call made before generation for signed-in users is
out of the specified core (authentication is an external collaborator),
so the unauthenticated path is modelled.
-/

inductive Phase where
  | input
  | questions
  | mock
  | complete
deriving DecidableEq, Repr

inductive QuestionType where
  | behavioral
  | technical
  | situational
deriving DecidableEq, Repr

inductive Difficulty where
  | easy
  | medium
  | hard
deriving DecidableEq, Repr

/-- The `Question` interface of source lines 106-112. -/
structure Question where
  id : String
  question : String
  type : QuestionType
  difficulty : Difficulty
  category : String
deriving DecidableEq, Repr

/-- The reactive state of the Home component (source lines 116-141). -/
structure Session where
  jobRole : String
  company : String
  difficulty : Difficulty
  seniority : String
  numberOfQuestions : Nat
  questionType : String
  questions : List Question
  isLoading : Bool
  error : String
  currentStep : Phase
  savedQuestionSetId : Option String
  currentQuestionIndex : Nat
  currentAnswer : String
  feedback : String
  isSubmittingAnswer : Bool
  showFeedback : Bool
  followUpQuestion : String
  isFetchingFollowUp : Bool
  timer : Nat
  timerRunning : Bool
deriving DecidableEq, Repr

/-- The initial state of every `useState` (source lines 116-141). -/
def initialSession : Session :=
  { jobRole := ""
    company := ""
    difficulty := Difficulty.medium
    seniority := "mid-level"
    numberOfQuestions := 5
    questionType := "all"
    questions := []
    isLoading := false
    error := ""
    currentStep := Phase.input
    savedQuestionSetId := none
    currentQuestionIndex := 0
    currentAnswer := ""
    feedback := ""
    isSubmittingAnswer := false
    showFeedback := false
    followUpQuestion := ""
    isFetchingFollowUp := false
    timer := 0
    timerRunning := false }

/-- The response of the generation endpoint: `data.questions` and the
optional `data.questionSetId` (source lines 232-236). -/
structure GenerateResponse where
  questions : Option (List Question)
  questionSetId : Option String
deriving DecidableEq, Repr

/-- How the awaited generation request resolves: a decoded body, or any
failure (a non-`ok` response or a thrown error, source lines 228-240). -/
inductive GenerateResult where
  | success (data : GenerateResponse)
  | failure
deriving DecidableEq, Repr

/-- How the awaited feedback request resolves; on success `data.feedback`
may be missing (`none`) or empty, both falsy (source lines 314-319). -/
inductive SubmitResult where
  | success (feedback : Option String)
  | failure
deriving DecidableEq, Repr

/-- How the awaited follow-up request resolves (source lines 271-281). -/
inductive FollowUpResult where
  | success (followUpQuestion : String)
  | failure
deriving DecidableEq, Repr

/-- The network requests the controller can issue. -/
inductive NetCall where
  | generateQuestions
  | generateFeedback
  | generateFollowUp
deriving DecidableEq, Repr

/-- JavaScript `String.prototype.trim`: strip leading and trailing
whitespace.  Implemented by structural recursion over the character list
so that concrete states evaluate inside the kernel. -/
def jsTrim (s : String) : String :=
  ⟨((s.data.dropWhile Char.isWhitespace).reverse.dropWhile Char.isWhitespace).reverse⟩

/-- The synchronous prefix of `handleGenerateQuestions` (source lines
169-177): blank-field validation, else set `isLoading`, clear `error`
and issue the request (the returned flag). -/
def handleGenerateQuestionsStart (s : Session) : Session × Bool :=
  if jsTrim s.jobRole = "" ∨ jsTrim s.company = "" then
    ({ s with error := "Please fill both fields" }, false)
  else
    ({ s with isLoading := true, error := "" }, true)

/-- The continuation of `handleGenerateQuestions` once the request
resolved (source lines 228-243): on success store `data.questions || []`
and the question-set id when present, move to the questions screen; on
any failure set the fixed error text; either way clear `isLoading`. -/
def handleGenerateQuestionsComplete (s : Session) : GenerateResult → Session
  | .success data =>
    let s1 := { s with questions := data.questions.getD [] }
    let s2 :=
      match data.questionSetId with
      | some qid => { s1 with savedQuestionSetId := some qid }
      | none => s1
    { s2 with currentStep := Phase.questions, isLoading := false }
  | .failure =>
    { s with error := "Failed to generate questions. Please try again.",
             isLoading := false }

/-- `startMockInterview` (source lines 246-253). -/
def startMockInterview (s : Session) : Session :=
  { s with currentStep := Phase.mock
           currentQuestionIndex := 0
           currentAnswer := ""
           feedback := ""
           showFeedback := false
           timer := 0 }

/-- The synchronous prefix of `submitAnswer` (source lines 287-298):
blank-answer validation, else clear the timer interval, set the pending
flag, clear `error` and issue the feedback request. -/
def submitAnswerStart (s : Session) : Session × Bool :=
  if jsTrim s.currentAnswer = "" then
    ({ s with error := "Please provide an answer before submitting" }, false)
  else
    ({ s with timerRunning := false, isSubmittingAnswer := true, error := "" }, true)

/-- The continuation of `submitAnswer` (source lines 314-326): on success
store `data.feedback || Good response! ...` and show the feedback panel;
on failure set the fixed error text; either way clear the pending flag. -/
def submitAnswerComplete (s : Session) : SubmitResult → Session
  | .success fb =>
    { s with feedback := jsOrElse fb ("Good response! Keep practicing to improve further.")
             showFeedback := true
             isSubmittingAnswer := false }
  | .failure =>
    { s with error := "Failed to get feedback. Please try again."
             isSubmittingAnswer := false }

/-- The synchronous prefix of `requestFollowUp` (source lines 255-257):
set the pending flag, clear the previous follow-up, issue the request. -/
def requestFollowUpStart (s : Session) : Session × Bool :=
  ({ s with isFetchingFollowUp := true, followUpQuestion := "" }, true)

/-- The continuation of `requestFollowUp` (source lines 271-284): store
the returned follow-up question, or the fixed apology text on any
failure; either way clear the pending flag. -/
def requestFollowUpComplete (s : Session) : FollowUpResult → Session
  | .success q =>
    { s with followUpQuestion := q, isFetchingFollowUp := false }
  | .failure =>
    { s with followUpQuestion := "Sorry, I couldn\x27t generate a follow-up. Please proceed to the next question."
             isFetchingFollowUp := false }

/-- `nextQuestion` (source lines 329-342); the comparison
`currentQuestionIndex < questions.length - 1` is JavaScript number
arithmetic, modelled on `Int`. -/
def nextQuestion (s : Session) : Session :=
  if (s.currentQuestionIndex : Int) < (s.questions.length : Int) - 1 then
    { s with currentQuestionIndex := s.currentQuestionIndex + 1
             currentAnswer := ""
             feedback := ""
             showFeedback := false
             followUpQuestion := ""
             error := ""
             timer := 0 }
  else
    { s with currentStep := Phase.complete }

/-- `resetToHome` (source lines 344-356). -/
def resetToHome (s : Session) : Session :=
  { s with currentStep := Phase.input
           questions := []
           jobRole := ""
           company := ""
           error := ""
           currentQuestionIndex := 0
           currentAnswer := ""
           feedback := ""
           showFeedback := false
           followUpQuestion := ""
           timer := 0 }

/-- The `disabled` condition of the Generate button (source line 595). -/
def generateDisabled (s : Session) : Bool :=
  s.isLoading || jsTrim s.jobRole == "" || jsTrim s.company == ""

/-- The `disabled` condition of the Submit Answer button (source
line 752). -/
def submitDisabled (s : Session) : Bool :=
  s.isSubmittingAnswer || jsTrim s.currentAnswer == ""

/-- User and network events driving the controller. Click events exist
only where the source renders the button; completion events deliver the
result of an in-flight request. -/
inductive Event where
  | setJobRole (v : String)
  | setCompany (v : String)
  | setDifficulty (v : Difficulty)
  | setSeniority (v : String)
  | setNumberOfQuestions (v : Nat)
  | setQuestionType (v : String)
  | setCurrentAnswer (v : String)
  | clickGenerate
  | generateCompleted (res : GenerateResult)
  | clickStartMock
  | clickSubmitAnswer
  | submitCompleted (res : SubmitResult)
  | clickRequestFollowUp
  | followUpCompleted (res : FollowUpResult)
  | clickNext
  | clickReset
  | tick
deriving DecidableEq, Repr

/-- One event applied to the session, before the timer effect: the new
state and the network requests issued.  Input fields render on the input
screen (answer box on the mock screen); each button click is dropped when
its screen is not shown or its `disabled` attribute holds; a completion
applies only while its pending flag shows the call in flight; `tick`
fires only while the interval is installed. -/
def rawStep (s : Session) : Event → Session × List NetCall
  | .setJobRole v =>
    (if s.currentStep = Phase.input then { s with jobRole := v } else s, [])
  | .setCompany v =>
    (if s.currentStep = Phase.input then { s with company := v } else s, [])
  | .setDifficulty v =>
    (if s.currentStep = Phase.input then { s with difficulty := v } else s, [])
  | .setSeniority v =>
    (if s.currentStep = Phase.input then { s with seniority := v } else s, [])
  | .setNumberOfQuestions v =>
    (if s.currentStep = Phase.input then { s with numberOfQuestions := v } else s, [])
  | .setQuestionType v =>
    (if s.currentStep = Phase.input then { s with questionType := v } else s, [])
  | .setCurrentAnswer v =>
    (if s.currentStep = Phase.mock then { s with currentAnswer := v } else s, [])
  | .clickGenerate =>
    if s.currentStep = Phase.input ∧ generateDisabled s = false then
      ((handleGenerateQuestionsStart s).1,
       if (handleGenerateQuestionsStart s).2 then [NetCall.generateQuestions] else [])
    else (s, [])
  | .generateCompleted res =>
    if s.isLoading then (handleGenerateQuestionsComplete s res, []) else (s, [])
  | .clickStartMock =>
    if s.currentStep = Phase.questions then (startMockInterview s, []) else (s, [])
  | .clickSubmitAnswer =>
    if s.currentStep = Phase.mock ∧ s.showFeedback = false ∧ submitDisabled s = false then
      ((submitAnswerStart s).1,
       if (submitAnswerStart s).2 then [NetCall.generateFeedback] else [])
    else (s, [])
  | .submitCompleted res =>
    if s.isSubmittingAnswer then (submitAnswerComplete s res, []) else (s, [])
  | .clickRequestFollowUp =>
    if s.currentStep = Phase.mock ∧ s.showFeedback = true ∧ s.isFetchingFollowUp = false then
      ((requestFollowUpStart s).1, [NetCall.generateFollowUp])
    else (s, [])
  | .followUpCompleted res =>
    if s.isFetchingFollowUp then (requestFollowUpComplete s res, []) else (s, [])
  | .clickNext =>
    if s.currentStep = Phase.mock ∧ s.showFeedback = true then (nextQuestion s, []) else (s, [])
  | .clickReset =>
    if s.currentStep ≠ Phase.input then (resetToHome s, []) else (s, [])
  | .tick =>
    (if s.timerRunning then { s with timer := s.timer + 1 } else s, [])

/-- The dependency tuple of the timer `useEffect` (source line 159). -/
def timerEffectDeps (s : Session) : Phase × Nat × Bool :=
  (s.currentStep, s.currentQuestionIndex, s.showFeedback)

/-- The timer `useEffect` (source lines 143-159): when one of its
dependencies changed, the interval is installed exactly when the mock
screen is shown with the feedback panel hidden, and cleared otherwise. -/
def applyTimerEffect (prev next : Session) : Session :=
  if timerEffectDeps prev = timerEffectDeps next then next
  else
    { next with timerRunning := decide (next.currentStep = Phase.mock) && !next.showFeedback }

/-- The full controller step: the event's state change followed by the
timer effect. -/
def stepState (s : Session) (e : Event) : Session :=
  applyTimerEffect s (rawStep s e).1

/-- Replaying an event sequence from a state. -/
def runEvents : Session → List Event → Session
  | s, [] => s
  | s, e :: es => runEvents (stepState s e) es

/-- A session state the controller can actually be in: reachable from the
initial state by some event sequence. -/
def Reachable (s : Session) : Prop :=
  ∃ evs, runEvents initialSession evs = s

/-- The claimed invariant, weakened to its reachable form: on the mock
screen the current index is in range unless the stored question sequence
is empty. -/
def IndexInv (s : Session) : Prop :=
  s.currentStep = Phase.mock →
    s.questions = [] ∨ s.currentQuestionIndex < s.questions.length

/-- The event trace refuting C5: fill both fields, generate, receive an
empty question sequence, start the mock interview. -/
def emptyGenTrace : List Event :=
  [ Event.setJobRole ("Software Engineer"), Event.setCompany ("Google"),
    Event.clickGenerate,
    Event.generateCompleted (GenerateResult.success ⟨some [], none⟩),
    Event.clickStartMock ]

/-- The trace used to witness the amended C5: as `emptyGenTrace` but the
backend returns one question. -/
def oneQuestionTrace : List Event :=
  [ Event.setJobRole ("Software Engineer"), Event.setCompany ("Google"),
    Event.clickGenerate,
    Event.generateCompleted (GenerateResult.success
      ⟨some [⟨"q1", "Tell me about a project you led.",
              QuestionType.behavioral, Difficulty.medium, "General"⟩], none⟩),
    Event.clickStartMock ]

/-- A session with a generation call in flight. -/
def loadingSession : Session :=
  { initialSession with isLoading := true }

/-- A mock-screen session whose draft answer is whitespace only. -/
def blankAnswerSession : Session :=
  { initialSession with currentStep := Phase.mock, currentAnswer := "   " }

lemma delayListFrom_eq (rd : Nat) :
    ∀ k i, delayListFrom rd i k = (List.range k).map (fun j => rd * (i + j + 1)) := by
  intro k
  induction k with
  | zero => intro i; simp [delayListFrom]
  | succ k ih =>
    intro i
    rw [List.range_succ_eq_map, List.map_cons, List.map_map]
    show rd * (i + 1) :: delayListFrom rd (i + 1) k = _
    congr 1
    rw [ih]
    apply List.map_congr_left
    intro j _
    simp only [Function.comp_apply]
    congr 1
    omega

lemma fetchLoop_skip (att : Nat → AttemptOutcome) (rd : Nat) :
    ∀ (k rem i : Nat), k ≤ rem →
      (∀ j, j < k → retryableOutcome (att (i + j)) = true) →
      fetchLoop att rd rem i =
        ⟨(fetchLoop att rd (rem - k) (i + k)).result,
         (fetchLoop att rd (rem - k) (i + k)).attempts + k,
         delayListFrom rd i k ++ (fetchLoop att rd (rem - k) (i + k)).delays⟩ := by
  intro k
  induction k with
  | zero =>
    intro rem i _ _
    simp [delayListFrom]
  | succ k ih =>
    intro rem i hk hpre
    obtain ⟨r, rfl⟩ : ∃ r, rem = r + 1 := ⟨rem - 1, by omega⟩
    have h0 : retryableOutcome (att i) = true := by
      have := hpre 0 (by omega)
      simpa using this
    have harith1 : r + 1 - (k + 1) = r - k := by omega
    have harith2 : i + (k + 1) = (i + 1) + k := by omega
    have hrec : fetchLoop att rd (r + 1) i =
        ⟨(fetchLoop att rd r (i + 1)).result,
         (fetchLoop att rd r (i + 1)).attempts + 1,
         rd * (i + 1) :: (fetchLoop att rd r (i + 1)).delays⟩ := by
      cases hai : att i with
      | completes s =>
        have hns : (respOk s || is4xx s) = false := by
          have := h0
          rw [hai] at this
          simpa [retryableOutcome] using this
        simp [fetchLoop, hai, hns]
      | aborts =>
        rw [hai] at h0
        simp [retryableOutcome] at h0
      | fails m =>
        simp [fetchLoop, hai]
    have hih := ih r (i + 1) (by omega) (fun j hj => by
      have h2 := hpre (j + 1) (by omega)
      have h3 : i + 1 + j = i + (j + 1) := by omega
      rw [h3]
      exact h2)
    rw [harith1, harith2, hrec, hih]
    simp only [delayListFrom, List.cons_append, RunStats.mk.injEq]
    refine ⟨trivial, by omega, trivial⟩

lemma fetchLoop_immediate_done (att : Nat → AttemptOutcome) (rd : Nat)
    (i s : Nat) (hs : att i = .completes s)
    (hret : (respOk s || is4xx s) = true) :
    ∀ rem, fetchLoop att rd rem i = ⟨.resp s, 1, []⟩ := by
  intro rem
  cases rem with
  | zero => simp [fetchLoop, hs]
  | succ r => simp [fetchLoop, hs, hret]

lemma fetchLoop_abort (att : Nat → AttemptOutcome) (rd : Nat)
    (i : Nat) (hs : att i = .aborts) :
    ∀ rem, fetchLoop att rd rem i = ⟨.thrown timeoutMessage, 1, []⟩ := by
  intro rem
  cases rem with
  | zero => simp [fetchLoop, hs]
  | succ r => simp [fetchLoop, hs]

lemma fetchLoop_last (att : Nat → AttemptOutcome) (rd : Nat) (i : Nat) :
    fetchLoop att rd 0 i = ⟨lastAttemptResult (att i), 1, []⟩ := by
  cases hai : att i <;> simp [fetchLoop, lastAttemptResult, hai]

lemma sum_linear_backoff (rd : Nat) :
    ∀ r, ((List.range r).map (fun j => rd * (j + 1))).sum =
      rd * ∑ j ∈ Finset.range r, (j + 1) := by
  intro r
  induction r with
  | zero => simp
  | succ r ih =>
    rw [List.range_succ, List.map_append, List.sum_append, Finset.sum_range_succ,
      Nat.mul_add, ih]
    simp

/-- C1: with `retries = r` against an endpoint whose every attempt fails
with a retryable outcome (a 5xx status or a network-level failure), the
client performs exactly `r + 1` attempts, awaits the backoff
`retryDelay * (i + 1)` after each attempt `i < r`, for a total delay of
`retryDelay * (1 + 2 + ... + r)`, and finally yields the outcome of the
last attempt (a 5xx response is returned; a network error is rethrown
from `lastError`, with the generic fallback text when its message is
empty). -/
theorem retry_exhaustion_attempts_delay (att : Nat → AttemptOutcome) (rd r : Nat)
    (h : ∀ i, (∃ s, att i = .completes s ∧ 500 ≤ s ∧ s ≤ 599) ∨ ∃ m, att i = .fails m) :
    fetchWithRetry att rd r =
      ⟨lastAttemptResult (att r), r + 1, (List.range r).map (fun j => rd * (j + 1))⟩ ∧
    (fetchWithRetry att rd r).delays.sum = rd * ∑ j ∈ Finset.range r, (j + 1) := by
  have hret : ∀ j, retryableOutcome (att j) = true := by
    intro j
    rcases h j with ⟨s, hs, h5, h6⟩ | ⟨m, hm⟩
    · rw [hs]
      simp only [retryableOutcome, respOk, is4xx]
      simp only [Bool.not_eq_true', Bool.or_eq_false_iff, Bool.and_eq_false_iff,
        decide_eq_false_iff_not, not_le]
      omega
    · rw [hm]
      rfl
  have hmain : fetchWithRetry att rd r =
      ⟨lastAttemptResult (att r), r + 1, (List.range r).map (fun j => rd * (j + 1))⟩ := by
    have hskip := fetchLoop_skip att rd r r 0 (le_refl r)
      (fun j _ => by rw [Nat.zero_add]; exact hret j)
    rw [fetchWithRetry, hskip, Nat.sub_self, Nat.zero_add, fetchLoop_last]
    dsimp only
    rw [List.append_nil, delayListFrom_eq, Nat.add_comm 1 r]
    congr 1
    apply List.map_congr_left
    intro j _
    congr 1
    omega
  refine ⟨hmain, ?_⟩
  rw [hmain]
  exact sum_linear_backoff rd r

/-- C1 witness: every attempt answers 503; with `retries = 2` and
`retryDelay = 7` the client performs 3 attempts, waits 7 then 14, and
returns the last 503 response. -/
theorem retry_exhaustion_attempts_delay_witness :
    (∀ i, ((fun _ : Nat => AttemptOutcome.completes 503) i = .completes 503 ∧
        500 ≤ 503 ∧ 503 ≤ 599)) ∧
    fetchWithRetry (fun _ => .completes 503) 7 2 = ⟨.resp 503, 3, [7, 14]⟩ ∧
    (fetchWithRetry (fun _ => .completes 503) 7 2).delays.sum = 21 := by
  refine ⟨fun i => ⟨rfl, by omega, by omega⟩, ?_, ?_⟩
  · have hm := (retry_exhaustion_attempts_delay (fun _ => .completes 503) 7 2
      (fun i => Or.inl ⟨503, rfl, by omega, by omega⟩)).1
    rw [hm]
    decide
  · have hs := (retry_exhaustion_attempts_delay (fun _ => .completes 503) 7 2
      (fun i => Or.inl ⟨503, rfl, by omega, by omega⟩)).2
    rw [hs]
    decide

/-- C2 counterexample: the claim predicts that a 304 response (status in
[200,399]) is returned immediately on attempt 0 with no further attempts
and no delay, i.e. the run would be `⟨resp 304, 1, []⟩`. The code treats
only `response.ok` ([200,299]) statuses as immediate successes, so with
`retries = 1` it retries after the 304, waits one backoff of 1000 ms and
returns the 200 of the second attempt. -/
theorem success_range_counterexample :
    (200 ≤ 304 ∧ 304 ≤ 399) ∧ attRedirect 0 = .completes 304 ∧
    fetchWithRetry attRedirect 1000 1 = ⟨.resp 200, 2, [1000]⟩ ∧
    fetchWithRetry attRedirect 1000 1 ≠ ⟨.resp 304, 1, []⟩ := by
  decide

/-- C2 (amended): for every response whose status code lies in the fetch
API `ok` range [200,299], `fetchWithRetry` returns that response as a
success immediately on the attempt that produced it, performing no
further attempts and no retry delay beyond the backoffs of the earlier
retried attempts; statuses in [300,399] are instead treated as
retryable. -/
theorem ok_response_immediate (att : Nat → AttemptOutcome) (rd r i s : Nat)
    (hi : i ≤ r)
    (hpre : ∀ j, j < i → retryableOutcome (att j) = true)
    (hs : att i = .completes s) (h2 : 200 ≤ s) (h3 : s ≤ 299) :
    fetchWithRetry att rd r =
      ⟨.resp s, i + 1, (List.range i).map (fun j => rd * (j + 1))⟩ := by
  have hok : (respOk s || is4xx s) = true := by
    simp only [respOk, is4xx, Bool.or_eq_true, Bool.and_eq_true, decide_eq_true_eq]
    omega
  have hskip := fetchLoop_skip att rd i r 0 hi
    (fun j hj => by rw [Nat.zero_add]; exact hpre j hj)
  rw [fetchWithRetry, hskip, Nat.zero_add,
    fetchLoop_immediate_done att rd i s hs hok (r - i)]
  dsimp only
  rw [List.append_nil, delayListFrom_eq, Nat.add_comm 1 i]
  congr 1
  apply List.map_congr_left
  intro j _
  congr 1
  omega

/-- C2 witness for the amended claim: a single 200 answer returns at once
with one attempt and no delay. -/
theorem ok_response_immediate_witness :
    (0 ≤ 3 ∧ (fun _ : Nat => AttemptOutcome.completes 200) 0 = .completes 200 ∧
      200 ≤ 200 ∧ 200 ≤ 299) ∧
    fetchWithRetry (fun _ => .completes 200) 1000 3 = ⟨.resp 200, 1, []⟩ := by
  refine ⟨⟨by omega, rfl, by omega, by omega⟩, ?_⟩
  have hm := ok_response_immediate (fun _ => .completes 200) 1000 3 0 200
    (by omega) (fun j hj => absurd hj (by omega)) rfl (by omega) (by omega)
  rw [hm]
  decide

/-- C3: when the attempt that the loop reaches aborts (the `timeoutMs`
cancellation token fired), the call immediately throws the fixed timeout
message — letter for letter the string of source lines 51-53 — after
exactly that attempt, no matter how many retries remain. -/
theorem timeout_immediate_no_retry (att : Nat → AttemptOutcome) (rd r i : Nat)
    (hi : i ≤ r)
    (hpre : ∀ j, j < i → retryableOutcome (att j) = true)
    (ha : att i = .aborts) :
    fetchWithRetry att rd r =
      ⟨.thrown "Request timeout. The server might be waking up (this can take up to 60 seconds on free tier). Please try again.",
       i + 1, (List.range i).map (fun j => rd * (j + 1))⟩ := by
  have hskip := fetchLoop_skip att rd i r 0 hi
    (fun j hj => by rw [Nat.zero_add]; exact hpre j hj)
  rw [fetchWithRetry, hskip, Nat.zero_add, fetchLoop_abort att rd i ha (r - i)]
  dsimp only
  rw [List.append_nil, delayListFrom_eq, Nat.add_comm 1 i]
  show RunStats.mk (.thrown timeoutMessage) _ _ = _
  rw [timeoutMessage]
  congr 1
  apply List.map_congr_left
  intro j _
  congr 1
  omega

/-- C3 witness: the first attempt times out with `retries = 3`; the call
throws the fixed message after one attempt and zero delays. -/
theorem timeout_immediate_no_retry_witness :
    (0 ≤ 3 ∧ (fun _ : Nat => AttemptOutcome.aborts) 0 = .aborts) ∧
    fetchWithRetry (fun _ => .aborts) 1000 3 =
      ⟨.thrown "Request timeout. The server might be waking up (this can take up to 60 seconds on free tier). Please try again.",
       1, []⟩ := by
  refine ⟨⟨by omega, rfl⟩, ?_⟩
  have hm := timeout_immediate_no_retry (fun _ => .aborts) 1000 3 0
    (by omega) (fun j hj => absurd hj (by omega)) rfl
  rw [hm]
  decide

/-- C8: any 4xx response is returned as a client error immediately on the
attempt that produced it, with no retry and no backoff delay after it. -/
theorem clientError_immediate (att : Nat → AttemptOutcome) (rd r i s : Nat)
    (hi : i ≤ r)
    (hpre : ∀ j, j < i → retryableOutcome (att j) = true)
    (hs : att i = .completes s) (h2 : 400 ≤ s) (h3 : s ≤ 499) :
    fetchWithRetry att rd r =
      ⟨.resp s, i + 1, (List.range i).map (fun j => rd * (j + 1))⟩ := by
  have hok : (respOk s || is4xx s) = true := by
    simp only [respOk, is4xx, Bool.or_eq_true, Bool.and_eq_true, decide_eq_true_eq]
    omega
  have hskip := fetchLoop_skip att rd i r 0 hi
    (fun j hj => by rw [Nat.zero_add]; exact hpre j hj)
  rw [fetchWithRetry, hskip, Nat.zero_add,
    fetchLoop_immediate_done att rd i s hs hok (r - i)]
  dsimp only
  rw [List.append_nil, delayListFrom_eq, Nat.add_comm 1 i]
  congr 1
  apply List.map_congr_left
  intro j _
  congr 1
  omega

/-- C8 witness: a 404 on the first attempt is returned after exactly one
attempt, zero retries, zero delays, with `retries = 3` available. -/
theorem clientError_immediate_witness :
    (0 ≤ 3 ∧ (fun _ : Nat => AttemptOutcome.completes 404) 0 = .completes 404 ∧
      400 ≤ 404 ∧ 404 ≤ 499) ∧
    fetchWithRetry (fun _ => .completes 404) 1000 3 = ⟨.resp 404, 1, []⟩ := by
  refine ⟨⟨by omega, rfl, by omega, by omega⟩, ?_⟩
  have hm := clientError_immediate (fun _ => .completes 404) 1000 3 0 404
    (by omega) (fun j hj => absurd hj (by omega)) rfl (by omega) (by omega)
  rw [hm]
  decide

/-- C4: for every non-success response, `fetchJSON` fails with a message
chosen in this exact preference order: the parsed body's `error` field if
present and truthy (non-empty), else the parsed body's `message` field if
present and truthy, else the generic string `HTTP error! status: N` with
the response's status code. -/
theorem fetchJSON_error_message_preference (status : Nat) (body : Option ErrorBody)
    (h : respOk status = false) :
    (∀ e, (body.getD ⟨none, none⟩).error = some e → e ≠ "" →
      fetchJSON status body = .error e) ∧
    (∀ m, ((body.getD ⟨none, none⟩).error = none ∨
        (body.getD ⟨none, none⟩).error = some "") →
      (body.getD ⟨none, none⟩).message = some m → m ≠ "" →
      fetchJSON status body = .error m) ∧
    (((body.getD ⟨none, none⟩).error = none ∨
        (body.getD ⟨none, none⟩).error = some "") →
      ((body.getD ⟨none, none⟩).message = none ∨
        (body.getD ⟨none, none⟩).message = some "") →
      fetchJSON status body = .error ("HTTP error! status: " ++ toString status)) := by
  refine ⟨?_, ?_, ?_⟩
  · intro e he hne
    simp [fetchJSON, h, fetchJSONErrorMessage, jsOrElse, he, hne]
  · intro m herr hm hnm
    rcases herr with h1 | h1 <;>
      simp [fetchJSON, h, fetchJSONErrorMessage, jsOrElse, h1, hm, hnm]
  · intro herr hmsg
    rcases herr with h1 | h1 <;> rcases hmsg with h2 | h2 <;>
      simp [fetchJSON, h, fetchJSONErrorMessage, jsOrElse, h1, h2]

/-- C4 witness: at status 404, a truthy `error` field wins; with `error`
empty the truthy `message` field wins; with no parseable body the generic
string is used. -/
theorem fetchJSON_error_message_preference_witness :
    respOk 404 = false ∧
    fetchJSON 404 (some ⟨some ("Not found"), some ("other")⟩) = .error ("Not found") ∧
    fetchJSON 404 (some ⟨some (""), some ("fallback msg")⟩) = .error ("fallback msg") ∧
    fetchJSON 404 none = .error ("HTTP error! status: 404") := by
  refine ⟨by decide, ?_, ?_, ?_⟩
  · exact (fetchJSON_error_message_preference 404 (some ⟨some ("Not found"), some ("other")⟩)
      (by decide)).1 ("Not found") rfl (by decide)
  · exact (fetchJSON_error_message_preference 404 (some ⟨some (""), some ("fallback msg")⟩)
      (by decide)).2.1 ("fallback msg") (Or.inr rfl) rfl (by decide)
  · have hg := (fetchJSON_error_message_preference 404 none
      (by decide)).2.2 (Or.inl rfl) (Or.inl rfl)
    rw [hg]
    rfl

lemma indexInv_applyTimerEffect (a b : Session) (h : IndexInv b) :
    IndexInv (applyTimerEffect a b) := by
  unfold applyTimerEffect
  split
  · exact h
  · exact h

lemma rawStep_indexInv (s : Session) (e : Event) (h : IndexInv s) :
    IndexInv (rawStep s e).1 := by
  cases e with
  | setJobRole v => dsimp only [rawStep]; split <;> exact h
  | setCompany v => dsimp only [rawStep]; split <;> exact h
  | setDifficulty v => dsimp only [rawStep]; split <;> exact h
  | setSeniority v => dsimp only [rawStep]; split <;> exact h
  | setNumberOfQuestions v => dsimp only [rawStep]; split <;> exact h
  | setQuestionType v => dsimp only [rawStep]; split <;> exact h
  | setCurrentAnswer v => dsimp only [rawStep]; split <;> exact h
  | clickGenerate =>
    dsimp only [rawStep]
    split
    · show IndexInv (handleGenerateQuestionsStart s).1
      unfold handleGenerateQuestionsStart
      split
      · intro hm
        exact h hm
      · intro hm
        exact h hm
    · exact h
  | generateCompleted res =>
    dsimp only [rawStep]
    split
    · cases res with
      | success d =>
        intro hm
        have hq : (handleGenerateQuestionsComplete s (.success d)).currentStep =
            Phase.questions := by
          unfold handleGenerateQuestionsComplete
          cases d.questionSetId <;> rfl
        exact absurd (hq.symm.trans hm) (by decide)
      | failure =>
        intro hm
        exact h hm
    · exact h
  | clickStartMock =>
    dsimp only [rawStep]
    split
    · show IndexInv (startMockInterview s)
      intro _
      cases hq : s.questions with
      | nil => exact Or.inl hq
      | cons a t =>
        refine Or.inr ?_
        show 0 < s.questions.length
        rw [hq]
        simp
    · exact h
  | clickSubmitAnswer =>
    dsimp only [rawStep]
    split
    · show IndexInv (submitAnswerStart s).1
      unfold submitAnswerStart
      split
      · intro hm
        exact h hm
      · intro hm
        exact h hm
    · exact h
  | submitCompleted res =>
    dsimp only [rawStep]
    split
    · cases res with
      | success fb =>
        intro hm
        exact h hm
      | failure =>
        intro hm
        exact h hm
    · exact h
  | clickRequestFollowUp =>
    dsimp only [rawStep]
    split
    · show IndexInv (requestFollowUpStart s).1
      intro hm
      exact h hm
    · exact h
  | followUpCompleted res =>
    dsimp only [rawStep]
    split
    · cases res with
      | success q =>
        intro hm
        exact h hm
      | failure =>
        intro hm
        exact h hm
    · exact h
  | clickNext =>
    dsimp only [rawStep]
    split
    · show IndexInv (nextQuestion s)
      unfold nextQuestion
      by_cases hlt : (s.currentQuestionIndex : Int) < (s.questions.length : Int) - 1
      · rw [if_pos hlt]
        intro hm
        rcases h hm with hnil | hidx
        · exact Or.inl hnil
        · refine Or.inr ?_
          show s.currentQuestionIndex + 1 < s.questions.length
          omega
      · rw [if_neg hlt]
        intro hm
        exact Phase.noConfusion hm
    · exact h
  | clickReset =>
    dsimp only [rawStep]
    split
    · show IndexInv (resetToHome s)
      intro hm
      exact Phase.noConfusion hm
    · exact h
  | tick =>
    dsimp only [rawStep]
    split
    · intro hm
      exact h hm
    · exact h

lemma stepState_indexInv (s : Session) (e : Event) (h : IndexInv s) :
    IndexInv (stepState s e) :=
  indexInv_applyTimerEffect s (rawStep s e).1 (rawStep_indexInv s e h)

lemma runEvents_indexInv : ∀ (evs : List Event) (s : Session),
    IndexInv s → IndexInv (runEvents s evs)
  | [], _, h => h
  | e :: es, s, h => runEvents_indexInv es (stepState s e) (stepState_indexInv s e h)

/-- C5 counterexample: after a generate step that stored an empty
question sequence, `startMockInterview` still moves to the mock screen
with `currentIndex = 0`, which is not a valid position in the empty
sequence — the claimed invariant fails on this reachable state. -/
theorem mock_empty_questions_counterexample :
    Reachable (runEvents initialSession emptyGenTrace) ∧
    (runEvents initialSession emptyGenTrace).currentStep = Phase.mock ∧
    (runEvents initialSession emptyGenTrace).questions = [] ∧
    ¬ (runEvents initialSession emptyGenTrace).currentQuestionIndex <
        (runEvents initialSession emptyGenTrace).questions.length := by
  refine ⟨⟨emptyGenTrace, rfl⟩, by decide, by decide, by decide⟩

/-- C5 (amended): in every reachable session state on the mock screen
whose stored question sequence is nonempty, `currentIndex` is a valid
position (`currentIndex < length questions`).  The unamended claim fails
for sessions whose generate step stored an empty sequence (see the
counterexample). -/
theorem mock_index_invariant (s : Session) (hr : Reachable s)
    (hm : s.currentStep = Phase.mock) (hne : s.questions ≠ []) :
    s.currentQuestionIndex < s.questions.length := by
  obtain ⟨evs, rfl⟩ := hr
  have hinv := runEvents_indexInv evs initialSession
    (fun hmm => absurd hmm (by decide))
  rcases hinv hm with hnil | hidx
  · exact absurd hnil hne
  · exact hidx

/-- C5 witness: a reachable mock-screen state holding one question, where
the amended invariant gives `currentIndex < 1`. -/
theorem mock_index_invariant_witness :
    Reachable (runEvents initialSession oneQuestionTrace) ∧
    (runEvents initialSession oneQuestionTrace).currentStep = Phase.mock ∧
    (runEvents initialSession oneQuestionTrace).questions ≠ [] ∧
    (runEvents initialSession oneQuestionTrace).currentQuestionIndex <
      (runEvents initialSession oneQuestionTrace).questions.length := by
  refine ⟨⟨oneQuestionTrace, rfl⟩, by decide, by decide, ?_⟩
  exact mock_index_invariant (runEvents initialSession oneQuestionTrace)
    ⟨oneQuestionTrace, rfl⟩ (by decide) (by decide)

/-- C6: a generate invocation while `isLoading = true` is dropped: the
Generate button renders disabled (source line 595), so the click issues
no network request and leaves the session state unchanged. -/
theorem generate_click_noop_while_loading (s : Session) (h : s.isLoading = true) :
    stepState s Event.clickGenerate = s ∧ (rawStep s Event.clickGenerate).2 = [] := by
  have hgate : ¬ (s.currentStep = Phase.input ∧ generateDisabled s = false) := by
    rintro ⟨-, hd⟩
    rw [generateDisabled] at hd
    rw [h] at hd
    simp at hd
  have hraw : rawStep s Event.clickGenerate = (s, []) := by
    dsimp only [rawStep]
    rw [if_neg hgate]
  refine ⟨?_, by rw [hraw]⟩
  show applyTimerEffect s (rawStep s Event.clickGenerate).1 = s
  rw [hraw]
  unfold applyTimerEffect
  rw [if_pos rfl]

/-- C6 witness: with the pending flag set, a second generate click
changes nothing and issues nothing. -/
theorem generate_click_noop_while_loading_witness :
    loadingSession.isLoading = true ∧
    stepState loadingSession Event.clickGenerate = loadingSession ∧
    (rawStep loadingSession Event.clickGenerate).2 = [] :=
  ⟨rfl, (generate_click_noop_while_loading loadingSession rfl).1,
    (generate_click_noop_while_loading loadingSession rfl).2⟩

/-- C7: `submitAnswer` with a blank (empty or whitespace-only) answer
sets the fixed validation error, issues no network request, and leaves
every other field — in particular `currentStep` (so the phase stays Mock)
and `feedback` (so it stays empty) — unchanged. -/
theorem submitAnswer_blank_validation (s : Session) (h : jsTrim s.currentAnswer = "") :
    submitAnswerStart s =
      ({ s with error := "Please provide an answer before submitting" }, false) ∧
    (submitAnswerStart s).1.currentStep = s.currentStep ∧
    (submitAnswerStart s).1.feedback = s.feedback ∧
    (submitAnswerStart s).2 = false := by
  have hs : submitAnswerStart s =
      ({ s with error := "Please provide an answer before submitting" }, false) := by
    unfold submitAnswerStart
    rw [if_pos h]
  exact ⟨hs, by rw [hs], by rw [hs], by rw [hs]⟩

/-- C7 witness: the whitespace-only answer trims to empty and the
validation branch is taken. -/
theorem submitAnswer_blank_validation_witness :
    jsTrim blankAnswerSession.currentAnswer = "" ∧
    submitAnswerStart blankAnswerSession =
      ({ blankAnswerSession with
          error := "Please provide an answer before submitting" }, false) ∧
    (submitAnswerStart blankAnswerSession).1.currentStep = Phase.mock ∧
    (submitAnswerStart blankAnswerSession).1.feedback = "" := by
  refine ⟨by decide, (submitAnswer_blank_validation blankAnswerSession (by decide)).1, ?_, ?_⟩
  · rw [(submitAnswer_blank_validation blankAnswerSession (by decide)).1]
    rfl
  · rw [(submitAnswer_blank_validation blankAnswerSession (by decide)).1]
    rfl

/-- C9: `resetToHome` from any session state yields the cleared session —
phase Input, empty questions, index 0, and the answer, feedback,
follow-up, error and timer fields cleared — and is idempotent. -/
theorem resetToHome_clears_and_idempotent (s : Session) :
    (resetToHome s).currentStep = Phase.input ∧
    (resetToHome s).questions = [] ∧
    (resetToHome s).currentQuestionIndex = 0 ∧
    (resetToHome s).currentAnswer = "" ∧
    (resetToHome s).feedback = "" ∧
    (resetToHome s).followUpQuestion = "" ∧
    (resetToHome s).error = "" ∧
    (resetToHome s).timer = 0 ∧
    resetToHome (resetToHome s) = resetToHome s :=
  ⟨rfl, rfl, rfl, rfl, rfl, rfl, rfl, rfl, rfl⟩

/-- C10: after every successful `submitAnswer` completion the stored
feedback is non-empty — when the response's `feedback` field is missing
or empty (falsy), the fixed fallback text is stored — and the feedback
panel becomes visible. -/
theorem submitAnswer_feedback_nonempty (s : Session) (fb : Option String) :
    (submitAnswerComplete s (.success fb)).feedback ≠ "" ∧
    (submitAnswerComplete s (.success fb)).showFeedback = true ∧
    ((fb = none ∨ fb = some "") →
      (submitAnswerComplete s (.success fb)).feedback =
        "Good response! Keep practicing to improve further.") := by
  refine ⟨?_, rfl, ?_⟩
  · show jsOrElse fb ("Good response! Keep practicing to improve further.") ≠ ""
    cases fb with
    | none => decide
    | some f =>
      show (if f = "" then "Good response! Keep practicing to improve further." else f) ≠ ""
      rcases eq_or_ne f "" with hf | hf
      · rw [if_pos hf]
        decide
      · rw [if_neg hf]
        exact hf
  · intro hfb
    rcases hfb with rfl | rfl
    · rfl
    · rfl

/-- C10 witness: an empty `feedback` field in the response stores the
fallback text, which is non-empty, and shows the panel. -/
theorem submitAnswer_feedback_nonempty_witness :
    ((some "" : Option String) = none ∨ (some "" : Option String) = some "") ∧
    (submitAnswerComplete initialSession (.success (some ""))).feedback =
      "Good response! Keep practicing to improve further." ∧
    (submitAnswerComplete initialSession (.success (some ""))).feedback ≠ "" ∧
    (submitAnswerComplete initialSession (.success (some ""))).showFeedback = true :=
  ⟨Or.inr rfl,
    (submitAnswer_feedback_nonempty initialSession (some "")).2.2 (Or.inr rfl),
    (submitAnswer_feedback_nonempty initialSession (some "")).1,
    (submitAnswer_feedback_nonempty initialSession (some "")).2.1⟩
